import Mathlib

/-!
Verification of the thumbnail-generation pipeline of the `thumbmaker`
repository against its natural-language specification.

The TypeScript sources are shallowly embedded: pure functions become Lean
functions on `String`/`List`/`Nat`; network, storage and database effects
are passed in explicitly as oracle arguments (an `Except` value stands for
the observed outcome of an awaited call that either returns or throws), and
the HTTP handlers additionally return the list of external calls they
performed, in order.  JavaScript string truthiness (`""` is falsy) is made
explicit wherever the source relies on it.
-/

/-! ## Generic string helpers (JS `String.prototype` operations) -/

/-- JS `s.startsWith(pre)`. -/
def strStartsWith (s pre : String) : Bool := pre.data.isPrefixOf s.data

/-- Substring occurrence on character lists (helper for `containsSub`). -/
def listContainsSub (needle : List Char) : List Char → Bool
  | [] => needle.isEmpty
  | c :: t => needle.isPrefixOf (c :: t) || listContainsSub needle t

/-- JS `hay.includes(needle)`: `needle` occurs contiguously in `hay`. -/
def containsSub (needle hay : String) : Bool := listContainsSub needle.data hay.data

/-- JS `s.trim()`: strip leading and trailing whitespace.  (Defined on the
character list so that it evaluates by kernel reduction.) -/
def jsTrim (s : String) : String :=
  String.mk (((s.data.dropWhile Char.isWhitespace).reverse.dropWhile
    Char.isWhitespace).reverse)

/-- JS truthiness of an optional string field: present and non-empty. -/
def jsTruthyOpt : Option String → Bool
  | none => false
  | some s => s != ""

/-! ## Data model (src/unnamed/part_008 interfaces) -/

/-- One photo of an avatar (`Avatar.photos` element). -/
structure Photo where
  id : String
  url : String
deriving DecidableEq

/-- Avatar entity (fields the pipeline reads). -/
structure Avatar where
  id : String
  name : String
  photos : List Photo
deriving DecidableEq

/-- Reference entity (fields the pipeline reads). -/
structure Reference where
  id : String
  userId : String
  fileUrl : String
deriving DecidableEq

/-- Thumbnail history record; `createdAt` is epoch milliseconds. -/
structure Thumbnail where
  id : String
  userId : String
  avatarId : String
  avatarName : String
  prompt : String
  textIdea : String
  thumbnailUrl : String
  references : List String
  additionalPrompt : Option String
  createdAt : Nat
deriving DecidableEq

/-- Request body of the generate endpoint (src/unnamed/part_003
`GenerateRequest`).  A missing `avatarId` is modelled as `""` (JS falsy);
the optional fields are `Option`s. -/
structure GenerateRequest where
  avatarId : String
  avatarPhotoId : Option String
  avatarPhotoIndex : Option Nat
  references : List String
  textIdea : String
  additionalPrompt : Option String
deriving DecidableEq

/-- Request body of the second generate endpoint
(src/app/api/generate/route.ts `GenerateRequest`). -/
structure RouteGenerateRequest where
  avatarId : String
  avatarPhotoId : String
  references : List String
  textIdea : String
deriving DecidableEq

/-- Observable shape of a `NextResponse.json` reply: HTTP status plus the
`success` / `thumbnailUrl` / `error` fields of the JSON body. -/
structure ApiResponse where
  status : Nat
  success : Bool
  thumbnailUrl : Option String
  error : Option String
deriving DecidableEq

/-- External calls a generate handler can perform, recorded in order. -/
inductive ExtCall where
  | dbGetAvatar (id : String)
  | dbGetReference (id : String)
  | providerCall
  | storageUpload
  | dbCreateThumbnail
deriving DecidableEq

/-! ## Validation predicates (src/unnamed/part_003 `POST`, lines 404-435;
identical first three checks in src/app/api/generate/route.ts) -/

/-- JS `!body.avatarId` for a string field. -/
def jsFalsyStr (s : String) : Bool := s == ""

/-- JS `!body.textIdea || body.textIdea.trim() === ''`. -/
def blankText (s : String) : Bool := s == "" || jsTrim s == ""

/-- JS `body.textIdea.length > 50`. -/
def tooLong50 (s : String) : Bool := decide (s.length > 50)

/-- JS `body.additionalPrompt && body.additionalPrompt.length > 500`. -/
def apTooLong : Option String → Bool
  | none => false
  | some a => a != "" && decide (a.length > 500)

/-! ## Prompt Composer (src/unnamed/part_003 `generateOptimizedPrompt`) -/

set_option linter.unusedVariables false in
/-- Prompt composer of the generate endpoint.  The `avatarPhotoUrl`
parameter is accepted but unused, exactly as in the source.  The
"Additional instructions" clause is appended only when the additional
prompt is truthy and non-blank after trimming, and what is appended is the
trimmed text. -/
def generateOptimizedPrompt (textIdea : String) (avatarPhotoUrl : String)
    (references : List String) (additionalPrompt : Option String) : String :=
  let promptTemplate :=
    "A professional YouTube thumbnail in 1280x720 (16:9 aspect ratio) with the text \"" ++
    textIdea ++
    "\" prominently displayed. The thumbnail features a person's face from the attached avatar photo as the main subject. You MUST use the person's face, features, and appearance from the provided avatar image to generate the thumbnail - maintain their identity, skin tone, hair style, and facial features exactly. The design follows YouTube thumbnail best practices: bold contrasting colors, clear readable text overlay, engaging facial expression, professional lighting, and eye-catching composition. " ++
    (if references.length > 0 then
      "Incorporate visual elements and style inspiration from the attached reference images for consistency."
     else "") ++
    " The overall aesthetic should be modern, high-energy, and optimized for click-through rate on YouTube."
  match additionalPrompt with
  | some ap => if ap != "" && jsTrim ap != "" then
      promptTemplate ++ " Additional instructions: " ++ jsTrim ap
    else promptTemplate
  | none => promptTemplate

/-! ## Generation Client response parsing
(src/unnamed/part_003 `callOpenRouterAPI`, lines 263-385) -/

/-- One entry of `message.images` in the provider response:
`typ` is the JS `type` tag, `imageUrlUrl` models `img.image_url?.url`,
`sourceData` models `img.source?.data` (absent or empty means falsy). -/
structure RawImg where
  typ : String
  imageUrlUrl : Option String
  sourceData : Option String
deriving DecidableEq

/-- Data-URL synthesis for a raw base64 payload (the `image` branch of the
parsing loop): keep an already-prefixed data URL; otherwise sniff the PNG
(`iVBORw0KGgo`) and JPEG (`/9j/`) base64 magic signatures and default to
PNG when neither matches. -/
def formatImageData (d : String) : String :=
  if strStartsWith d "data:" then d
  else
    let isPng := strStartsWith d "iVBORw0KGgo"
    let isJpeg := strStartsWith d "/9j/"
    let mimeType := if isPng then "png" else if isJpeg then "jpeg" else "png"
    "data:image/" ++ mimeType ++ ";base64," ++ d

/-- The `for (const img of message.images)` extraction loop: the first
entry that is URL-shaped (truthy nested url) yields that URL unchanged;
the first entry that is data-shaped (truthy `source.data`) yields the
(possibly prefixed) data URL; other entries are skipped. -/
def extractFromImages : List RawImg → Option String
  | [] => none
  | img :: rest =>
    if img.typ == "image_url" && jsTruthyOpt img.imageUrlUrl then
      img.imageUrlUrl
    else if img.typ == "image" && jsTruthyOpt img.sourceData then
      match img.sourceData with
      | some d => some (formatImageData d)
      | none => none
    else extractFromImages rest

/-- A choice's `message` in the provider response body. -/
structure ORMessage where
  images : Option (List RawImg)
deriving DecidableEq

/-- Failure modes of `callOpenRouterAPI`.  `typeErrorOnLog` models the
uncaught JS `TypeError` raised by the debug statement
`console.log(..., Object.keys(data.choices[0].message))`, which runs
before the `if (!data.choices || data.choices.length === 0)` guard;
`noChoices` models that guard's own
`Error('No choices returned from OpenRouter API')`. -/
inductive ORErr where
  | apiKeyMissing
  | transportFailed
  | typeErrorOnLog
  | noChoices
  | extractionFailed
deriving DecidableEq

/-- `callOpenRouterAPI` after the request was sent: transport failure, the
debug-log access of `data.choices[0].message`, the dead no-choices guard,
the `message.images` extraction loop, and the final
`Could not extract image URL` failure, in source order.  When `choices`
is absent or empty the function fails with `typeErrorOnLog` because the
debug statement dereferences `data.choices[0].message` first. -/
def callOpenRouterAPI (apiKeyConfigured : Bool) (transportOk : Bool)
    (choices : Option (List ORMessage)) : Except ORErr String :=
  if !apiKeyConfigured then .error .apiKeyMissing
  else if !transportOk then .error .transportFailed
  else
    match choices with
    | none => .error .typeErrorOnLog
    | some [] => .error .typeErrorOnLog
    | some (message :: _) =>
      -- source guard: `if (!data.choices || data.choices.length === 0)`;
      -- choices is nonempty in this branch, so the guard never fires
      match message.images with
      | some imgs =>
        if imgs.length > 0 then
          match extractFromImages imgs with
          | some u => .ok u
          | none => .error .extractionFailed
        else .error .extractionFailed
      | none => .error .extractionFailed

/-! ## Storage Uploader (src/lib/supabase-storage.ts) -/

/-- `const MAX_FILE_SIZE = 10 * 1024 * 1024`. -/
def MAX_FILE_SIZE : Nat := 10 * 1024 * 1024

/-- `const MAX_RETRIES = 3`. -/
def MAX_RETRIES : Nat := 3

/-- `const RETRY_DELAY_MS = 1000`. -/
def RETRY_DELAY_MS : Nat := 1000

/-- Outcome of `fetch(url)` + `response.blob()` for an HTTP(S) locator:
`failed` is a non-ok response, otherwise the blob's byte size and declared
MIME type (empty string models a missing `blob.type`). -/
inductive FetchResult where
  | failed
  | blob (size : Nat) (blobType : String)
deriving DecidableEq

/-- The `File` produced by `downloadImageFromUrl`: byte size, MIME type and
filename extension. -/
structure StorageFile where
  size : Nat
  mimeType : String
  ext : String
deriving DecidableEq

/-- `downloadImageFromUrl` (src/lib/supabase-storage.ts lines 21-69).
`parseDataUrl` is the oracle for the
regex match `^data:image\/([a-z]+);base64,(.+)$` together with
`Buffer.from(payload, 'base64')`: it returns the captured extension and the
decoded byte length, or `none` when the regex does not match.
`fetchResult` is the oracle for the HTTP branch.  Both branches reject with
`Arquivo muito grande` exactly when the byte size strictly exceeds
`MAX_FILE_SIZE`. -/
def downloadImageFromUrl (url : String)
    (parseDataUrl : String → Option (String × Nat))
    (fetchResult : FetchResult) : Except String StorageFile :=
  if strStartsWith url "data:image/" then
    match parseDataUrl url with
    | none => .error "Invalid data URL format"
    | some (ext, decodedLen) =>
      if decodedLen > MAX_FILE_SIZE then .error "Arquivo muito grande"
      else .ok ⟨decodedLen, "image/" ++ ext, ext⟩
  else
    match fetchResult with
    | .failed => .error "Failed to download image"
    | .blob size blobType =>
      if size > MAX_FILE_SIZE then .error "Arquivo muito grande"
      else
        let contentType := if blobType == "" then "image/jpeg" else blobType
        let extPart := (contentType.splitOn "/").getD 1 "jpg"
        .ok ⟨size, contentType, if extPart == "" then "jpg" else extPart⟩

/-- Outcome of one upload attempt inside the retry loop:
`ok` is a successful `supabaseAdmin.storage.upload`; `storageError` is a
returned `{ error }` (its message is inspected for the transient
signature); `thrown` is any other exception inside the `try` block. -/
inductive AttemptResult where
  | ok (publicUrl : String) (storedPath : String)
  | storageError (msg : String)
  | thrown (msg : String)

/-- The transient-failure signature test:
`error.message.includes('Service unavailable') || includes('503') ||
includes('Network error')`. -/
def isTransientMsg (msg : String) : Bool :=
  containsSub "Service unavailable" msg || containsSub "503" msg ||
    containsSub "Network error" msg

/-- Normalisation of one attempt, as seen by the `catch` block: a storage
error with a transient signature is rethrown as `Serviço indisponível`,
any other storage error as its own message, and other exceptions keep
their message. -/
def attemptOutcome : AttemptResult → Except String (String × String)
  | .ok u p => .ok (u, p)
  | .storageError m =>
    .error (if isTransientMsg m then "Serviço indisponível" else m)
  | .thrown m => .error m

deriving instance DecidableEq for Except

/-- Everything observable about one run of the retry loop: the final
result (`ok (publicUrl, path)` or the thrown error message), how many
attempts were made, and the list of backoff delays awaited (in ms, in
order). -/
structure RetryOutcome where
  result : Except String (String × String)
  attemptCount : Nat
  delays : List Nat
deriving DecidableEq

/-- The `for (let attempt = 1; attempt <= MAX_RETRIES; attempt++)` loop of
`uploadFileWithRetry`: `attempts n` is the outcome of attempt number `n`,
`attempt` the current attempt number, `remaining` how many attempts are
still allowed.  Every failed attempt is retried while attempts remain,
after a delay of `RETRY_DELAY_MS * attempt`; the last failure's message is
rethrown. -/
def uploadAttemptLoop (attempts : Nat → AttemptResult) :
    Nat → Nat → RetryOutcome
  | _, 0 => ⟨.error "Erro ao fazer upload", 0, []⟩
  | attempt, remaining + 1 =>
    match attemptOutcome (attempts attempt) with
    | .ok r => ⟨.ok r, 1, []⟩
    | .error msg =>
      match remaining with
      | 0 => ⟨.error msg, 1, []⟩
      | rem + 1 =>
        let rest := uploadAttemptLoop attempts (attempt + 1) (rem + 1)
        ⟨rest.result, rest.attemptCount + 1, (RETRY_DELAY_MS * attempt) :: rest.delays⟩

/-- `uploadFileWithRetry` (src/lib/supabase-storage.ts lines 105-179):
fails immediately with `Serviço indisponível` when the Supabase client is
not configured, otherwise runs the bounded retry loop starting at
attempt 1. -/
def uploadFileWithRetry (configured : Bool)
    (attempts : Nat → AttemptResult) : RetryOutcome :=
  if !configured then ⟨.error "Serviço indisponível", 0, []⟩
  else uploadAttemptLoop attempts 1 MAX_RETRIES

/-! ## Asset resolution inside the generate endpoint
(src/unnamed/part_003 `POST`, lines 449-458) -/

/-- The photo-selection chain: prefer a truthy `avatarPhotoId` (looked up
with `find`), otherwise a numeric `avatarPhotoIndex` (array indexing),
otherwise the first photo. -/
def selectAvatarPhoto (photos : List Photo) (avatarPhotoId : Option String)
    (avatarPhotoIndex : Option Nat) : Option Photo :=
  if jsTruthyOpt avatarPhotoId then
    photos.find? (fun p => p.id == avatarPhotoId.getD "")
  else
    match avatarPhotoIndex with
    | some i => photos[i]?
    | none => photos[0]?

/-- `const avatarPhotoUrl = selectedPhoto?.url || ''`. -/
def selectAvatarPhotoUrl (avatar : Avatar) (avatarPhotoId : Option String)
    (avatarPhotoIndex : Option Nat) : String :=
  match selectAvatarPhoto avatar.photos avatarPhotoId avatarPhotoIndex with
  | some p => p.url
  | none => ""

/-! ## Generate endpoint, src/unnamed/part_003 `POST` (lines 387-571) -/

/-- The generate handler of src/unnamed/part_003, with its collaborators
passed as oracles: `getAvatarById` / `getReferenceById` are the database
reads, `providerResult` the outcome of `callOpenRouterAPI` (`.error` =
any exception), `uploadResult` the outcome of
`uploadOpenRouterImageToStorage` (`.ok` carries the public storage URL),
and `createThumbnailResult` the outcome of `db.createThumbnail`.  Returns
the JSON response together with the ordered list of external calls
performed. -/
def part003POST (session : Option String) (body : GenerateRequest)
    (getAvatarById : String → Option Avatar)
    (getReferenceById : String → Option Reference)
    (providerResult : Except Unit String)
    (uploadResult : Except Unit String)
    (createThumbnailResult : Except Unit Thumbnail) :
    ApiResponse × List ExtCall :=
  match session with
  | none => (⟨401, false, none, some "Unauthorized"⟩, [])
  | some _userId =>
    if jsFalsyStr body.avatarId then
      (⟨400, false, none, some "Selecione um avatar"⟩, [])
    else if blankText body.textIdea then
      (⟨400, false, none, some "Digite uma ideia para o thumbnail"⟩, [])
    else if tooLong50 body.textIdea then
      (⟨400, false, none, some "A ideia de texto deve ter no máximo 50 caracteres"⟩, [])
    else if apTooLong body.additionalPrompt then
      (⟨400, false, none, some "O prompt adicional deve ter no máximo 500 caracteres"⟩, [])
    else
      let t0 : List ExtCall := [ExtCall.dbGetAvatar body.avatarId]
      match getAvatarById body.avatarId with
      | none => (⟨404, false, none, some "Avatar não encontrado"⟩, t0)
      | some avatar =>
        let avatarPhotoUrl :=
          selectAvatarPhotoUrl avatar body.avatarPhotoId body.avatarPhotoIndex
        let t1 := t0 ++ body.references.map ExtCall.dbGetReference
        let _referenceUrls :=
          (body.references.map getReferenceById).filterMap (Option.map Reference.fileUrl)
        let _optimizedPrompt :=
          generateOptimizedPrompt body.textIdea avatarPhotoUrl body.references
            body.additionalPrompt
        let t2 := t1 ++ [ExtCall.providerCall]
        match providerResult with
        | .error _ =>
          (⟨500, false, none, some "Falha na geração, tente novamente"⟩, t2)
        | .ok thumbnailUrl =>
          let t3 := t2 ++ [ExtCall.storageUpload]
          let storageUrl :=
            match uploadResult with
            | .ok u => u
            | .error _ => thumbnailUrl
          if storageUrl == "" ||
              (!strStartsWith storageUrl "http" && !strStartsWith storageUrl "data:image") then
            (⟨500, false, none, some "Erro ao processar imagem"⟩, t3)
          else
            let t4 := t3 ++ [ExtCall.dbCreateThumbnail]
            match createThumbnailResult with
            | .ok _ => (⟨200, true, some storageUrl, none⟩, t4)
            | .error _ =>
              (⟨500, false, none, some "Erro interno do servidor"⟩, t4)

/-! ## Generate endpoint, src/app/api/generate/route.ts `POST` -/

/-- The `catch` block of route.ts's upload/persist `try`: a caught
`Serviço indisponível` yields 503, `Arquivo muito grande` yields 400, and
any other error falls back to the provider URL and still reports
success. -/
def routeCatch (msg thumbnailUrl : String) : ApiResponse :=
  if msg == "Serviço indisponível" then
    ⟨503, false, none, some "Serviço indisponível"⟩
  else if msg == "Arquivo muito grande" then
    ⟨400, false, none, some "Arquivo muito grande"⟩
  else ⟨200, true, some thumbnailUrl, none⟩

/-- The generate handler of src/app/api/generate/route.ts.  Oracles as in
`part003POST`, except that the caught error messages matter here
(`uploadResult` / `createThumbnailResult` carry them) and a
`supabaseConfigured` flag selects the branch.  Note that the single
`try` around upload and database write means a database failure after a
successful upload also runs `routeCatch`, which overwrites the storage URL
with the provider URL. -/
def routePOST (session : Option String) (body : RouteGenerateRequest)
    (getAvatarById : String → Option Avatar)
    (providerResult : Except Unit String)
    (supabaseConfigured : Bool)
    (uploadResult : Except String String)
    (createThumbnailResult : Except String Thumbnail) : ApiResponse :=
  match session with
  | none => ⟨401, false, none, some "Unauthorized"⟩
  | some _userId =>
    if jsFalsyStr body.avatarId then
      ⟨400, false, none, some "Selecione um avatar"⟩
    else if blankText body.textIdea then
      ⟨400, false, none, some "Digite uma ideia para o thumbnail"⟩
    else if tooLong50 body.textIdea then
      ⟨400, false, none, some "A ideia de texto deve ter no máximo 50 caracteres"⟩
    else
      match getAvatarById body.avatarId with
      | none => ⟨404, false, none, some "Avatar não encontrado"⟩
      | some _avatar =>
        match providerResult with
        | .error _ => ⟨500, false, none, some "Falha na geração, tente novamente"⟩
        | .ok thumbnailUrl =>
          if thumbnailUrl == "" || !strStartsWith thumbnailUrl "http" then
            ⟨500, false, none, some "Erro ao processar imagem"⟩
          else if supabaseConfigured then
            match uploadResult with
            | .error msg => routeCatch msg thumbnailUrl
            | .ok storageUrl =>
              match createThumbnailResult with
              | .ok _ => ⟨200, true, some storageUrl, none⟩
              | .error msg => routeCatch msg thumbnailUrl
          else ⟨200, true, some thumbnailUrl, none⟩

/-! ## Persistence: getThumbnailsByUserId, both implementations -/

namespace MemDb

/-- In-memory `getThumbnailsByUserId` (src/unnamed/part_008 lines
299-304): filter by owner, then stable sort by `createdAt` descending
(the JS comparator `b.createdAt - a.createdAt`). -/
def getThumbnailsByUserId (thumbnails : List Thumbnail) (userId : String) :
    List Thumbnail :=
  (thumbnails.filter (fun t => t.userId == userId)).mergeSort
    (fun a b => decide (b.createdAt ≤ a.createdAt))

end MemDb

/-- A row of the Supabase `thumbnails` table as returned by `select('*')`
(snake_case column names; nullable columns are `Option`s). -/
structure ThumbRow where
  id : String
  user_id : String
  avatar_id : String
  avatar_name : String
  prompt : String
  text_idea : String
  thumbnail_url : String
  references : Option (List String)
  additional_prompt : Option String
  created_at : Nat
deriving DecidableEq

/-- The row-to-entity mapping of src/lib/file-storage.ts
`getThumbnailsByUserId` (lines 744-755): `references || []` and
`additional_prompt || undefined`. -/
def rowToThumbnail (t : ThumbRow) : Thumbnail :=
  ⟨t.id, t.user_id, t.avatar_id, t.avatar_name, t.prompt, t.text_idea,
    t.thumbnail_url, t.references.getD [], t.additional_prompt, t.created_at⟩

namespace SupaDb

/-- Semantics of the PostgREST query
`.from('thumbnails').select('*').eq('user_id', userId)
.order('created_at', ascending: false)` issued by
src/lib/file-storage.ts lines 732-736.  The filtering and ordering are
executed by the external Supabase service; they are modelled here by the
query's documented meaning: rows with the given `user_id`, sorted by
`created_at` descending. -/
def thumbnailsQuery (table : List ThumbRow) (userId : String) :
    List ThumbRow :=
  (table.filter (fun r => r.user_id == userId)).mergeSort
    (fun a b => decide (b.created_at ≤ a.created_at))

/-- Supabase-backed `getThumbnailsByUserId` (src/lib/file-storage.ts lines
729-756): on a query error it returns `[]`, otherwise it maps the rows to
`Thumbnail` values. -/
def getThumbnailsByUserId (table : List ThumbRow) (userId : String)
    (queryError : Bool) : List Thumbnail :=
  if queryError then []
  else (thumbnailsQuery table userId).map rowToThumbnail

end SupaDb

/-! ## Concrete witnesses' input data -/

/-- A concrete avatar with one photo. -/
def demoAvatar : Avatar := ⟨"av1", "Alice", [⟨"p1", "https://cdn.example/p1.png"⟩]⟩

/-- A concrete avatar that has zero photos. -/
def demoAvatarNoPhotos : Avatar := ⟨"av2", "Bob", []⟩

/-- A concrete valid generation request for `demoAvatar`. -/
def demoBody : GenerateRequest := ⟨"av1", none, none, [], "AI SECRET REVEALED", none⟩

/-- A concrete valid generation request for `demoAvatarNoPhotos`. -/
def demoBodyNoPhotos : GenerateRequest := ⟨"av2", none, none, [], "Idea", none⟩

/-- A concrete invalid generation request (blank text idea). -/
def demoBodyBlank : GenerateRequest := ⟨"av1", none, none, [], "", none⟩

/-- A concrete thumbnail record. -/
def demoThumb : Thumbnail :=
  ⟨"t1", "user1", "av1", "Alice", "p", "AI SECRET REVEALED",
    "https://storage.example/u.png", [], none, 100⟩

/-- A second concrete thumbnail record, older and owned by another user. -/
def demoThumbOther : Thumbnail :=
  ⟨"t2", "user2", "av9", "Carol", "p2", "Other idea",
    "https://storage.example/v.png", [], none, 50⟩

/-- A concrete valid request body for the route.ts endpoint. -/
def demoRouteBody : RouteGenerateRequest := ⟨"av1", "p1", [], "AI SECRET REVEALED"⟩

/-! ## Claim C4 — FileTooLarge boundary -/

/-- Claim C4: `downloadImageFromUrl` rejects with the FileTooLarge error
(`Arquivo muito grande`) exactly when the decoded byte size strictly
exceeds 10 MB (`MAX_FILE_SIZE`), in both the data-URL branch and the
HTTP branch; a size of at most 10 MB — in particular exactly 10 MB — is
accepted. -/
theorem fileTooLarge_boundary_thm (url : String)
    (parseDataUrl : String → Option (String × Nat)) (fr : FetchResult)
    (ext bt : String) (n : Nat) :
    (strStartsWith url "data:image/" = true →
      parseDataUrl url = some (ext, n) →
      ((MAX_FILE_SIZE < n →
        downloadImageFromUrl url parseDataUrl fr = .error "Arquivo muito grande") ∧
       (n ≤ MAX_FILE_SIZE →
        downloadImageFromUrl url parseDataUrl fr = .ok ⟨n, "image/" ++ ext, ext⟩))) ∧
    (strStartsWith url "data:image/" = false →
      ((MAX_FILE_SIZE < n →
        downloadImageFromUrl url parseDataUrl (.blob n bt) =
          .error "Arquivo muito grande") ∧
       (n ≤ MAX_FILE_SIZE →
        ∃ f, downloadImageFromUrl url parseDataUrl (.blob n bt) = .ok f ∧
          f.size = n))) := by
  constructor
  · intro h1 h2
    constructor
    · intro hgt
      simp only [downloadImageFromUrl, h1, if_true, h2]
      rw [if_pos hgt]
    · intro hle
      simp only [downloadImageFromUrl, h1, if_true, h2]
      rw [if_neg (Nat.not_lt.mpr hle)]
  · intro h1
    constructor
    · intro hgt
      simp only [downloadImageFromUrl, h1, Bool.false_eq_true, if_false]
      rw [if_pos hgt]
    · intro hle
      simp only [downloadImageFromUrl, h1, Bool.false_eq_true, if_false]
      rw [if_neg (Nat.not_lt.mpr hle)]
      exact ⟨_, rfl, rfl⟩

/-- Witness for C4 at the boundary: a decoded size of exactly 10 MB
(10485760 bytes) is accepted, 10 MB + 1 is rejected. -/
theorem fileTooLarge_boundary_wit :
    downloadImageFromUrl "data:image/png;base64,AAAA"
        (fun _ => some ("png", 10485761)) .failed =
      .error "Arquivo muito grande" ∧
    downloadImageFromUrl "data:image/png;base64,AAAA"
        (fun _ => some ("png", 10485760)) .failed =
      .ok ⟨10485760, "image/" ++ "png", "png"⟩ := by
  constructor
  · exact ((fileTooLarge_boundary_thm "data:image/png;base64,AAAA"
      (fun _ => some ("png", 10485761)) .failed "png" "x" 10485761).1
      (by decide) rfl).1 (by decide)
  · exact ((fileTooLarge_boundary_thm "data:image/png;base64,AAAA"
      (fun _ => some ("png", 10485760)) .failed "png" "x" 10485760).1
      (by decide) rfl).2 (by decide)

/-! ## Claim C5 — image-shape parsing -/

/-- A string beginning with the JPEG base64 magic cannot begin with the
PNG base64 magic: the first characters differ. -/
theorem jpegMagic_not_pngMagic {d : String} (h : strStartsWith d "/9j/" = true) :
    strStartsWith d "iVBORw0KGgo" = false := by
  have h4 : ("/9j/").data = ['/', '9', 'j', '/'] := rfl
  have h11 : ("iVBORw0KGgo").data =
      ['i', 'V', 'B', 'O', 'R', 'w', '0', 'K', 'G', 'g', 'o'] := rfl
  unfold strStartsWith at h ⊢
  rw [h4] at h
  rw [h11]
  cases hd : d.data with
  | nil => rw [hd] at h; simp [List.isPrefixOf] at h
  | cons c t =>
    rw [hd] at h
    simp only [List.isPrefixOf, Bool.and_eq_true, beq_iff_eq] at h
    obtain ⟨hc, -⟩ := h
    simp only [List.isPrefixOf, Bool.and_eq_false_iff]
    left
    rw [← hc]
    decide

/-- Claim C5: the image-extraction loop returns a URL-shaped entry's URL
unchanged; returns an already-prefixed data payload as is; and prefixes an
unprefixed payload with the PNG data-URL scheme when it carries the PNG
magic, the JPEG scheme when it carries the JPEG magic, and the PNG scheme
by default when neither magic matches. -/
theorem imageShapeParsing_thm (u d : String) (rest : List RawImg) :
    (u ≠ "" →
      extractFromImages (⟨"image_url", some u, none⟩ :: rest) = some u) ∧
    (d ≠ "" → strStartsWith d "data:" = true →
      extractFromImages (⟨"image", none, some d⟩ :: rest) = some d) ∧
    (d ≠ "" → strStartsWith d "data:" = false →
      strStartsWith d "iVBORw0KGgo" = true →
      extractFromImages (⟨"image", none, some d⟩ :: rest) =
        some ("data:image/png;base64," ++ d)) ∧
    (d ≠ "" → strStartsWith d "data:" = false →
      strStartsWith d "/9j/" = true →
      extractFromImages (⟨"image", none, some d⟩ :: rest) =
        some ("data:image/jpeg;base64," ++ d)) ∧
    (d ≠ "" → strStartsWith d "data:" = false →
      strStartsWith d "iVBORw0KGgo" = false → strStartsWith d "/9j/" = false →
      extractFromImages (⟨"image", none, some d⟩ :: rest) =
        some ("data:image/png;base64," ++ d)) := by
  refine ⟨fun hu => ?_, fun hd hpre => ?_, fun hd hpre hpng => ?_,
    fun hd hpre hjpg => ?_, fun hd hpre hpng hjpg => ?_⟩
  · simp [extractFromImages, jsTruthyOpt, hu]
  · simp [extractFromImages, jsTruthyOpt, formatImageData, hd, hpre]
  · simp [extractFromImages, jsTruthyOpt, formatImageData, hd, hpre, hpng]
  · simp [extractFromImages, jsTruthyOpt, formatImageData, hd, hpre, hjpg,
      jpegMagic_not_pngMagic hjpg]
  · simp [extractFromImages, jsTruthyOpt, formatImageData, hd, hpre, hpng, hjpg]

/-- Witness for C5 on concrete payloads of every shape. -/
theorem imageShapeParsing_wit :
    extractFromImages [⟨"image_url", some "https://img.example/x.png", none⟩] =
      some "https://img.example/x.png" ∧
    extractFromImages [⟨"image", none, some "data:image/png;base64,QUJD"⟩] =
      some "data:image/png;base64,QUJD" ∧
    extractFromImages [⟨"image", none, some "iVBORw0KGgoAAAANSUhEUgAA"⟩] =
      some ("data:image/png;base64," ++ "iVBORw0KGgoAAAANSUhEUgAA") ∧
    extractFromImages [⟨"image", none, some "/9j/4AAQSkZJRg"⟩] =
      some ("data:image/jpeg;base64," ++ "/9j/4AAQSkZJRg") ∧
    extractFromImages [⟨"image", none, some "Qk0aAAAA"⟩] =
      some ("data:image/png;base64," ++ "Qk0aAAAA") :=
  ⟨(imageShapeParsing_thm "https://img.example/x.png" "x" []).1 (by decide),
   (imageShapeParsing_thm "u" "data:image/png;base64,QUJD" []).2.1
     (by decide) (by decide),
   (imageShapeParsing_thm "u" "iVBORw0KGgoAAAANSUhEUgAA" []).2.2.1
     (by decide) (by decide) (by decide),
   (imageShapeParsing_thm "u" "/9j/4AAQSkZJRg" []).2.2.2.1
     (by decide) (by decide) (by decide),
   (imageShapeParsing_thm "u" "Qk0aAAAA" []).2.2.2.2
     (by decide) (by decide) (by decide) (by decide)⟩

/-! ## Claim C6 — no-choices handling in the Generation Client -/

/-- The `No choices returned from OpenRouter API` guard can never fire:
whenever `choices` is absent or empty, the preceding debug statement
already crashed with a `TypeError`. -/
theorem callOpenRouterAPI_noChoices_dead (k t : Bool)
    (c : Option (List ORMessage)) :
    decide (callOpenRouterAPI k t c = .error .noChoices) = false := by
  rw [decide_eq_false_iff_not]
  intro hEq
  cases k with
  | false => simp [callOpenRouterAPI] at hEq
  | true =>
    cases t with
    | false => simp [callOpenRouterAPI] at hEq
    | true =>
      match c with
      | none => simp [callOpenRouterAPI] at hEq
      | some [] => simp [callOpenRouterAPI] at hEq
      | some (m :: ms) =>
        rcases hmi : m.images with - | imgs
        · simp [callOpenRouterAPI, hmi] at hEq
        · simp [callOpenRouterAPI, hmi] at hEq
          split at hEq
          · rcases hex : extractFromImages imgs with - | u <;>
              rw [hex] at hEq <;> simp at hEq
          · simp at hEq

/-- Claim C6 (code bug): a success response with no `choices` (absent or
empty list) does not reach the client's `No choices returned` guard — the
debug statement `console.log(..., Object.keys(data.choices[0].message))`
dereferences `data.choices[0].message` first and crashes with a
`TypeError` (`typeErrorOnLog`), so the guard's distinct error is
unreachable on every input.  When a choice exists but carries no
recognisable image entry, the client does fail with the distinct
`Could not extract image URL` error (`extractionFailed`), which is a
different constructor from a transport failure
(`transportFailed`). -/
theorem noChoicesCrash_thm :
    callOpenRouterAPI true true (some []) = .error .typeErrorOnLog ∧
    callOpenRouterAPI true true none = .error .typeErrorOnLog ∧
    callOpenRouterAPI true true (some [⟨some []⟩]) = .error .extractionFailed ∧
    callOpenRouterAPI true true (some [⟨some [⟨"text", none, none⟩]⟩]) =
      .error .extractionFailed ∧
    callOpenRouterAPI true false (some []) = .error .transportFailed ∧
    (∀ k t c, decide (callOpenRouterAPI k t c = .error .noChoices) = false) :=
  ⟨by decide, by decide, by decide, by decide, by decide,
    callOpenRouterAPI_noChoices_dead⟩

/-! ## Claim C3 — upload retry policy -/

/-- The retry loop performs at most `MAX_RETRIES` attempts, whatever the
attempt outcomes are. -/
theorem uploadFileWithRetry_count_le (configured : Bool)
    (attempts : Nat → AttemptResult) :
    (uploadFileWithRetry configured attempts).attemptCount ≤ MAX_RETRIES := by
  cases configured with
  | false => simp [uploadFileWithRetry, MAX_RETRIES]
  | true =>
    simp only [uploadFileWithRetry, MAX_RETRIES, Bool.not_true, Bool.false_eq_true,
      if_false]
    cases h1 : attemptOutcome (attempts 1) with
    | ok r => simp [uploadAttemptLoop, h1]
    | error m1 =>
      cases h2 : attemptOutcome (attempts 2) with
      | ok r => simp [uploadAttemptLoop, h1, h2]
      | error m2 =>
        cases h3 : attemptOutcome (attempts 3) with
        | ok r => simp [uploadAttemptLoop, h1, h2, h3]
        | error m3 => simp [uploadAttemptLoop, h1, h2, h3]

/-- Claim C3, amended: the upload is attempted at most 3 times
(`MAX_RETRIES`), each failed non-final attempt `N` waits
`N × RETRY_DELAY_MS` before the next one, the loop stops at the first
successful attempt, and after the third failed attempt the uploader fails
with the last (normalised) error.  All failures are retried — the
transient-signature test only renames the error, it does not stop the
retrying. -/
theorem uploadRetryPolicy_thm (attempts : Nat → AttemptResult) :
    (∀ cfg, (uploadFileWithRetry cfg attempts).attemptCount ≤ MAX_RETRIES) ∧
    (∀ r, attemptOutcome (attempts 1) = .ok r →
      uploadFileWithRetry true attempts = ⟨.ok r, 1, []⟩) ∧
    (∀ e1 r, attemptOutcome (attempts 1) = .error e1 →
      attemptOutcome (attempts 2) = .ok r →
      uploadFileWithRetry true attempts = ⟨.ok r, 2, [RETRY_DELAY_MS * 1]⟩) ∧
    (∀ e1 e2 r, attemptOutcome (attempts 1) = .error e1 →
      attemptOutcome (attempts 2) = .error e2 →
      attemptOutcome (attempts 3) = .ok r →
      uploadFileWithRetry true attempts =
        ⟨.ok r, 3, [RETRY_DELAY_MS * 1, RETRY_DELAY_MS * 2]⟩) ∧
    (∀ e1 e2 e3, attemptOutcome (attempts 1) = .error e1 →
      attemptOutcome (attempts 2) = .error e2 →
      attemptOutcome (attempts 3) = .error e3 →
      uploadFileWithRetry true attempts =
        ⟨.error e3, 3, [RETRY_DELAY_MS * 1, RETRY_DELAY_MS * 2]⟩) := by
  refine ⟨fun cfg => uploadFileWithRetry_count_le cfg attempts,
    fun r h1 => ?_, fun e1 r h1 h2 => ?_, fun e1 e2 r h1 h2 h3 => ?_,
    fun e1 e2 e3 h1 h2 h3 => ?_⟩
  · simp [uploadFileWithRetry, MAX_RETRIES, uploadAttemptLoop, h1]
  · simp [uploadFileWithRetry, MAX_RETRIES, RETRY_DELAY_MS, uploadAttemptLoop,
      h1, h2]
  · simp [uploadFileWithRetry, MAX_RETRIES, RETRY_DELAY_MS, uploadAttemptLoop,
      h1, h2, h3]
  · simp [uploadFileWithRetry, MAX_RETRIES, RETRY_DELAY_MS, uploadAttemptLoop,
      h1, h2, h3]

/-- Witness for C3: first two attempts fail with the transient signature,
the third succeeds; exactly 3 attempts are made with delays of 1000 ms and
2000 ms. -/
theorem uploadRetryPolicy_wit :
    uploadFileWithRetry true
        (fun n => if n == 3 then .ok "https://pub.example/t.png" "u1/t.png"
          else .storageError "Service unavailable right now") =
      ⟨.ok ("https://pub.example/t.png", "u1/t.png"), 3,
        [RETRY_DELAY_MS * 1, RETRY_DELAY_MS * 2]⟩ :=
  (uploadRetryPolicy_thm _).2.2.2.1 "Serviço indisponível" "Serviço indisponível"
    ("https://pub.example/t.png", "u1/t.png") (by decide) (by decide) (by decide)

/-- Counterexample to C3 as stated: a non-transient storage error
(`Invalid payload`, which does not carry the transient signature) is
retried anyway — all 3 attempts are consumed instead of failing after a
single attempt — and the last underlying error is surfaced. -/
theorem uploadRetryPolicy_cex :
    isTransientMsg "Invalid payload" = false ∧
    (uploadFileWithRetry true
      (fun _ => .storageError "Invalid payload")).attemptCount = 3 ∧
    (uploadFileWithRetry true
      (fun _ => .storageError "Invalid payload")).result =
      .error "Invalid payload" := by decide

/-! ## Claim C10 — getThumbnailsByUserId, both implementations -/

/-- Claim C10: both the in-memory and the Supabase-backed
`getThumbnailsByUserId` return only thumbnails owned by the requested user
id, sorted by creation timestamp in descending order. -/
theorem thumbnailsByUserId_thm (ts : List Thumbnail) (rows : List ThumbRow)
    (uid : String) (qerr : Bool) :
    (∀ t ∈ MemDb.getThumbnailsByUserId ts uid, t.userId = uid) ∧
    (MemDb.getThumbnailsByUserId ts uid).Pairwise
      (fun a b => b.createdAt ≤ a.createdAt) ∧
    (∀ t ∈ SupaDb.getThumbnailsByUserId rows uid qerr, t.userId = uid) ∧
    (SupaDb.getThumbnailsByUserId rows uid qerr).Pairwise
      (fun a b => b.createdAt ≤ a.createdAt) := by
  refine ⟨?_, ?_, ?_, ?_⟩
  · intro t ht
    rw [MemDb.getThumbnailsByUserId, List.mem_mergeSort] at ht
    simpa using (List.mem_filter.mp ht).2
  · have hs := @List.sorted_mergeSort Thumbnail
      (fun a b => decide (b.createdAt ≤ a.createdAt))
      (fun a b c hab hbc => by
        simp only [decide_eq_true_eq] at hab hbc ⊢; omega)
      (fun a b => by simpa using Nat.le_total b.createdAt a.createdAt)
      (ts.filter (fun t => t.userId == uid))
    rw [MemDb.getThumbnailsByUserId]
    exact hs.imp (fun h => by simpa using h)
  · intro t ht
    cases qerr with
    | true => simp [SupaDb.getThumbnailsByUserId] at ht
    | false =>
      simp only [SupaDb.getThumbnailsByUserId, Bool.false_eq_true, if_false] at ht
      obtain ⟨r, hr, rfl⟩ := List.mem_map.mp ht
      rw [SupaDb.thumbnailsQuery, List.mem_mergeSort] at hr
      have h2 := (List.mem_filter.mp hr).2
      simpa [rowToThumbnail] using h2
  · cases qerr with
    | true => simp [SupaDb.getThumbnailsByUserId]
    | false =>
      simp only [SupaDb.getThumbnailsByUserId, Bool.false_eq_true, if_false]
      rw [List.pairwise_map, SupaDb.thumbnailsQuery]
      have hs := @List.sorted_mergeSort ThumbRow
        (fun a b => decide (b.created_at ≤ a.created_at))
        (fun a b c hab hbc => by
          simp only [decide_eq_true_eq] at hab hbc ⊢; omega)
        (fun a b => by simpa using Nat.le_total b.created_at a.created_at)
        (rows.filter (fun r => r.user_id == uid))
      exact hs.imp (fun h => by simpa [rowToThumbnail] using h)

/-- Witness for C10 on a concrete two-user store. -/
theorem thumbnailsByUserId_wit :
    demoThumb.userId = "user1" ∧
    (MemDb.getThumbnailsByUserId [demoThumbOther, demoThumb] "user1").Pairwise
      (fun a b => b.createdAt ≤ a.createdAt) :=
  ⟨(thumbnailsByUserId_thm [demoThumbOther, demoThumb] [] "user1" false).1
      demoThumb (by
        rw [MemDb.getThumbnailsByUserId, List.mem_mergeSort]
        decide),
   (thumbnailsByUserId_thm [demoThumbOther, demoThumb] [] "user1" false).2.1⟩

/-! ## Claim C8 — Additional instructions suffix -/

/-- Claim C8, amended: the composed prompt ends with the
`Additional instructions:` clause followed by the trimmed additional
prompt exactly when the additional prompt is present and non-blank after
trimming; when it is blank (or absent) the composed prompt is the bare
template.  What is appended is `jsTrim ap`, not `ap` verbatim. -/
theorem additionalInstructions_thm (textIdea url : String)
    (refs : List String) (ap : String) :
    (jsTrim ap ≠ "" →
      generateOptimizedPrompt textIdea url refs (some ap) =
        generateOptimizedPrompt textIdea url refs none ++
          " Additional instructions: " ++ jsTrim ap) ∧
    (jsTrim ap = "" →
      generateOptimizedPrompt textIdea url refs (some ap) =
        generateOptimizedPrompt textIdea url refs none) ∧
    (generateOptimizedPrompt textIdea url refs (some ap) ≠
        generateOptimizedPrompt textIdea url refs none ↔ jsTrim ap ≠ "") := by
  have case1 : jsTrim ap ≠ "" →
      generateOptimizedPrompt textIdea url refs (some ap) =
        generateOptimizedPrompt textIdea url refs none ++
          " Additional instructions: " ++ jsTrim ap := by
    intro h
    have hap : ap ≠ "" := by
      intro he
      apply h
      rw [he]
      rfl
    have hc : (ap != "" && jsTrim ap != "") = true := by
      simp only [Bool.and_eq_true, bne_iff_ne]
      exact ⟨hap, h⟩
    simp [generateOptimizedPrompt, hc]
  have case2 : jsTrim ap = "" →
      generateOptimizedPrompt textIdea url refs (some ap) =
        generateOptimizedPrompt textIdea url refs none := by
    intro h
    have hc : (ap != "" && jsTrim ap != "") = false := by
      simp [h]
    simp [generateOptimizedPrompt, hc]
  refine ⟨case1, case2, ?_, ?_⟩
  · intro hne
    by_cases h : jsTrim ap = ""
    · exact absurd (case2 h) hne
    · exact h
  · intro h heq
    rw [case1 h] at heq
    have hlen := congrArg String.length heq
    rw [String.length_append, String.length_append] at hlen
    have h26 : (" Additional instructions: ").length = 26 := by decide
    rw [h26] at hlen
    have hpos : 0 < (jsTrim ap).length := by
      cases hj : jsTrim ap with
      | mk data =>
        cases data with
        | nil => exact absurd hj h
        | cons c cs => simp [String.length, hj]
    omega

/-- Witness for C8 (amended): a concrete padded additional prompt is
appended in trimmed form. -/
theorem additionalInstructions_wit :
    generateOptimizedPrompt "T" "" [] (some " extra flair ") =
      generateOptimizedPrompt "T" "" [] none ++
        " Additional instructions: " ++ jsTrim " extra flair " :=
  (additionalInstructions_thm "T" "" [] " extra flair ").1 (by decide)

set_option maxRecDepth 20000 in
/-- Counterexample to C8 as stated: for the additional prompt `" x "`
(present, and non-blank after trimming) the composed prompt does not
contain the additional prompt verbatim anywhere — only its trimmed form
is appended — so no trailing clause contains it. -/
theorem additionalInstructions_cex :
    jsTrim " x " = "x" ∧
    containsSub " x " (generateOptimizedPrompt "T" "" [] (some " x ")) = false := by
  constructor
  · decide
  · decide

/-! ## Claim C7 — fail-fast validation -/

/-- Claim C7: for every authenticated request whose `avatarId` is missing,
whose `textIdea` is empty, blank or longer than 50 characters, or whose
`additionalPrompt` is present and longer than 500 characters, the generate
endpoint returns a 400 failure and performs no external call of any kind
(the call trace is empty). -/
theorem failFastValidation_thm (uid : String) (body : GenerateRequest)
    (ga : String → Option Avatar) (gr : String → Option Reference)
    (prov : Except Unit String) (upl : Except Unit String)
    (dbw : Except Unit Thumbnail)
    (hbad : jsFalsyStr body.avatarId = true ∨ blankText body.textIdea = true ∨
      tooLong50 body.textIdea = true ∨ apTooLong body.additionalPrompt = true) :
    (part003POST (some uid) body ga gr prov upl dbw).1.status = 400 ∧
    (part003POST (some uid) body ga gr prov upl dbw).1.success = false ∧
    (part003POST (some uid) body ga gr prov upl dbw).2 = [] := by
  cases hA : jsFalsyStr body.avatarId <;>
  cases hB : blankText body.textIdea <;>
  cases hC : tooLong50 body.textIdea <;>
  cases hD : apTooLong body.additionalPrompt <;>
  simp_all [part003POST]

/-- Witness for C7: a blank text idea yields 400 with an empty call
trace. -/
theorem failFastValidation_wit :
    (part003POST (some "user1") demoBodyBlank (fun _ => some demoAvatar)
        (fun _ => none) (.ok "u") (.ok "s") (.ok demoThumb)).1.status = 400 ∧
    (part003POST (some "user1") demoBodyBlank (fun _ => some demoAvatar)
        (fun _ => none) (.ok "u") (.ok "s") (.ok demoThumb)).1.success = false ∧
    (part003POST (some "user1") demoBodyBlank (fun _ => some demoAvatar)
        (fun _ => none) (.ok "u") (.ok "s") (.ok demoThumb)).2 = [] :=
  failFastValidation_thm "user1" demoBodyBlank _ _ _ _ _
    (Or.inr (Or.inl (by decide)))

/-! ## Claim C2 — provider-URL fallback on upload failure -/

/-- Claim C2: when the provider call succeeds with a usable image URL
(`http` or `data:image` prefixed), the storage upload fails, and the
history write succeeds, the generate endpoint substitutes the provider URL
and still responds success with that URL. -/
theorem providerUrlFallback_thm (uid : String) (body : GenerateRequest)
    (ga : String → Option Avatar) (gr : String → Option Reference)
    (avatar : Avatar) (u : String) (t : Thumbnail)
    (hA : jsFalsyStr body.avatarId = false)
    (hB : blankText body.textIdea = false)
    (hC : tooLong50 body.textIdea = false)
    (hD : apTooLong body.additionalPrompt = false)
    (hav : ga body.avatarId = some avatar)
    (husable : (strStartsWith u "http" || strStartsWith u "data:image") = true) :
    (part003POST (some uid) body ga gr (.ok u) (.error ()) (.ok t)).1 =
      ⟨200, true, some u, none⟩ := by
  have hne : u ≠ "" := by
    intro h
    rw [h] at husable
    exact absurd husable (by decide)
  cases h1 : strStartsWith u "http" <;> cases h2 : strStartsWith u "data:image" <;>
    simp_all [part003POST]

/-- Witness for C2: concrete run where the upload throws and the caller
still receives success with the provider URL. -/
theorem providerUrlFallback_wit :
    (part003POST (some "user1") demoBody (fun _ => some demoAvatar)
        (fun _ => none) (.ok "https://prov.example/gen.png") (.error ())
        (.ok demoThumb)).1 =
      ⟨200, true, some "https://prov.example/gen.png", none⟩ :=
  providerUrlFallback_thm "user1" demoBody _ _ demoAvatar
    "https://prov.example/gen.png" demoThumb (by decide) (by decide)
    (by decide) (by decide) rfl (by decide)

/-! ## Claim C1 — persistence-failure policy after a successful upload -/

/-- Claim C1, amended: when the provider call and the storage upload both
succeed and the subsequent history write fails, the two generate endpoints
disagree.  The route.ts endpoint still returns success and only logs the
failure, but its catch block substitutes the provider URL for the storage
URL; the part_003 endpoint surfaces the failure as a 500
`Erro interno do servidor` response. -/
theorem dbFailurePolicy_thm (uid : String) (body : GenerateRequest)
    (rbody : RouteGenerateRequest) (ga ga2 : String → Option Avatar)
    (gr : String → Option Reference) (avatar avatar2 : Avatar)
    (u su u2 su2 msg : String)
    (hA : jsFalsyStr body.avatarId = false)
    (hB : blankText body.textIdea = false)
    (hC : tooLong50 body.textIdea = false)
    (hD : apTooLong body.additionalPrompt = false)
    (hav : ga body.avatarId = some avatar)
    (hsu : (strStartsWith su "http" || strStartsWith su "data:image") = true)
    (hA2 : jsFalsyStr rbody.avatarId = false)
    (hB2 : blankText rbody.textIdea = false)
    (hC2 : tooLong50 rbody.textIdea = false)
    (hav2 : ga2 rbody.avatarId = some avatar2)
    (hu2 : strStartsWith u2 "http" = true)
    (hm1 : msg ≠ "Serviço indisponível")
    (hm2 : msg ≠ "Arquivo muito grande") :
    (part003POST (some uid) body ga gr (.ok u) (.ok su) (.error ())).1 =
      ⟨500, false, none, some "Erro interno do servidor"⟩ ∧
    routePOST (some uid) rbody ga2 (.ok u2) true (.ok su2) (.error msg) =
      ⟨200, true, some u2, none⟩ := by
  constructor
  · have hne : su ≠ "" := by
      intro h
      rw [h] at hsu
      exact absurd hsu (by decide)
    cases h1 : strStartsWith su "http" <;>
      cases h2 : strStartsWith su "data:image" <;> simp_all [part003POST]
  · have hne2 : u2 ≠ "" := by
      intro h
      rw [h] at hu2
      exact absurd hu2 (by decide)
    simp [routePOST, routeCatch, hA2, hB2, hC2, hav2, hu2, hne2, hm1, hm2]

/-- Witness for C1 (amended) on concrete inputs; the database error
message is the one the Supabase persistence layer actually throws. -/
theorem dbFailurePolicy_wit :
    (part003POST (some "user1") demoBody (fun _ => some demoAvatar)
        (fun _ => none) (.ok "https://prov.example/gen.png")
        (.ok "https://storage.example/u.png") (.error ())).1 =
      ⟨500, false, none, some "Erro interno do servidor"⟩ ∧
    routePOST (some "user1") demoRouteBody (fun _ => some demoAvatar)
        (.ok "https://prov.example/gen.png") true
        (.ok "https://storage.example/u.png")
        (.error "Erro ao criar thumbnail") =
      ⟨200, true, some "https://prov.example/gen.png", none⟩ :=
  dbFailurePolicy_thm "user1" demoBody demoRouteBody _ _ _ demoAvatar demoAvatar
    "https://prov.example/gen.png" "https://storage.example/u.png"
    "https://prov.example/gen.png" "https://storage.example/u.png"
    "Erro ao criar thumbnail" (by decide) (by decide) (by decide) (by decide)
    rfl (by decide) (by decide) (by decide) (by decide) rfl (by decide)
    (by decide) (by decide)

/-- Counterexample to C1 as stated: with provider and upload both
successful and the history write failing, the part_003 endpoint returns a
500 error response (the failure is surfaced, not merely logged), and the
route.ts endpoint returns success with the provider URL, which differs
from the storage URL. -/
theorem dbFailurePolicy_cex :
    (part003POST (some "user1") demoBody (fun _ => some demoAvatar)
        (fun _ => none) (.ok "https://prov.example/gen.png")
        (.ok "https://storage.example/u.png") (.error ())).1 =
      ⟨500, false, none, some "Erro interno do servidor"⟩ ∧
    routePOST (some "user1") demoRouteBody (fun _ => some demoAvatar)
        (.ok "https://prov.example/gen.png") true
        (.ok "https://storage.example/u.png")
        (.error "Erro ao criar thumbnail") =
      ⟨200, true, some "https://prov.example/gen.png", none⟩ ∧
    ("https://prov.example/gen.png" == "https://storage.example/u.png") = false := by
  refine ⟨by decide, by decide, by decide⟩

/-! ## Claim C9 — asset resolution -/

/-- Claim C9, amended: asset resolution returns the selected photo's URL
(by id, by index, or the first photo when both selectors are absent), and
the endpoint fails with the 404 `Avatar não encontrado` response only when
the avatar itself does not exist.  When the selected photo id or index
does not resolve, or the avatar has zero photos, the resolved URL is the
empty string and the pipeline proceeds to the provider call instead of
failing. -/
theorem assetResolution_thm (avatar : Avatar) (pid : String) (i : Nat)
    (p : Photo) (uid : String) (body : GenerateRequest)
    (ga : String → Option Avatar) (gr : String → Option Reference)
    (prov : Except Unit String) (upl : Except Unit String)
    (dbw : Except Unit Thumbnail) :
    (pid ≠ "" → avatar.photos.find? (fun q => q.id == pid) = some p →
      selectAvatarPhotoUrl avatar (some pid) none = p.url) ∧
    (pid ≠ "" → avatar.photos.find? (fun q => q.id == pid) = none →
      selectAvatarPhotoUrl avatar (some pid) none = "") ∧
    (avatar.photos[i]? = some p →
      selectAvatarPhotoUrl avatar none (some i) = p.url) ∧
    (avatar.photos[i]? = none →
      selectAvatarPhotoUrl avatar none (some i) = "") ∧
    (avatar.photos[0]? = some p →
      selectAvatarPhotoUrl avatar none none = p.url) ∧
    (avatar.photos = [] →
      ∀ sel idx, selectAvatarPhotoUrl avatar sel idx = "") ∧
    (jsFalsyStr body.avatarId = false → blankText body.textIdea = false →
      tooLong50 body.textIdea = false → apTooLong body.additionalPrompt = false →
      ga body.avatarId = none →
      part003POST (some uid) body ga gr prov upl dbw =
        (⟨404, false, none, some "Avatar não encontrado"⟩,
          [ExtCall.dbGetAvatar body.avatarId])) ∧
    (jsFalsyStr body.avatarId = false → blankText body.textIdea = false →
      tooLong50 body.textIdea = false → apTooLong body.additionalPrompt = false →
      ga body.avatarId = some avatar →
      ExtCall.providerCall ∈ (part003POST (some uid) body ga gr prov upl dbw).2) := by
  refine ⟨fun hp hf => ?_, fun hp hf => ?_, fun hf => ?_, fun hf => ?_,
    fun hf => ?_, fun h0 sel idx => ?_, fun h1 h2 h3 h4 hn => ?_,
    fun h1 h2 h3 h4 hav => ?_⟩
  · simp [selectAvatarPhotoUrl, selectAvatarPhoto, jsTruthyOpt, hp, hf]
  · simp [selectAvatarPhotoUrl, selectAvatarPhoto, jsTruthyOpt, hp, hf]
  · simp [selectAvatarPhotoUrl, selectAvatarPhoto, jsTruthyOpt, hf]
  · simp [selectAvatarPhotoUrl, selectAvatarPhoto, jsTruthyOpt, hf]
  · simp [selectAvatarPhotoUrl, selectAvatarPhoto, jsTruthyOpt, hf]
  · rcases sel with - | s <;> rcases idx with - | j <;>
      simp [selectAvatarPhotoUrl, selectAvatarPhoto, jsTruthyOpt, h0]
  · simp [part003POST, h1, h2, h3, h4, hn]
  · cases prov with
    | error e => simp [part003POST, h1, h2, h3, h4, hav]
    | ok u =>
      simp only [part003POST, h1, h2, h3, h4, hav, Bool.false_eq_true, if_false]
      split
      · simp
      · cases dbw <;> simp

/-- Witness for C9 (amended): the id selector resolves to the selected
photo's URL on a concrete avatar, and a missing avatar yields the 404
response with only the avatar read in the trace. -/
theorem assetResolution_wit :
    selectAvatarPhotoUrl demoAvatar (some "p1") none =
      "https://cdn.example/p1.png" ∧
    part003POST (some "user1") demoBody (fun _ => none) (fun _ => none)
        (.ok "u") (.ok "s") (.ok demoThumb) =
      (⟨404, false, none, some "Avatar não encontrado"⟩,
        [ExtCall.dbGetAvatar "av1"]) :=
  ⟨(assetResolution_thm demoAvatar "p1" 0 ⟨"p1", "https://cdn.example/p1.png"⟩
      "user1" demoBody (fun _ => none) (fun _ => none) (.ok "u") (.ok "s")
      (.ok demoThumb)).1 (by decide) (by decide),
   (assetResolution_thm demoAvatar "p1" 0 ⟨"p1", "https://cdn.example/p1.png"⟩
      "user1" demoBody (fun _ => none) (fun _ => none) (.ok "u") (.ok "s")
      (.ok demoThumb)).2.2.2.2.2.2.1 (by decide) (by decide) (by decide)
      (by decide) rfl⟩

/-- Counterexample to C9 as stated: an avatar with zero photos does not
make the request fail with AssetNotFound — resolution yields the empty
URL and the request still completes successfully. -/
theorem assetResolution_cex :
    selectAvatarPhotoUrl demoAvatarNoPhotos none none = "" ∧
    (part003POST (some "user1") demoBodyNoPhotos
        (fun _ => some demoAvatarNoPhotos) (fun _ => none)
        (.ok "https://prov.example/g.png") (.ok "https://storage.example/s.png")
        (.ok demoThumb)).1 =
      ⟨200, true, some "https://storage.example/s.png", none⟩ := by
  refine ⟨by decide, by decide⟩
